import Mathlib

/-!
Verification of the PharmaGuard backend against its specification.

The development shallowly embeds the two modules the claims are about:
`backend/risk_engine.py` (diplotype → phenotype → drug-risk classification)
and `backend/vcf_parser.py` (variant-call text parsing with a three-tier
gene/allele resolver).  Python strings are Lean `String`s (manipulated via
their underlying `List Char`), Python dicts are association lists looked up
with later-binding-wins semantics (matching Python dict literals and
assignment), float literals are rationals (they are only ever copied, never
computed with), and the one reachable runtime exception (`.upper()` on a
boolean INFO flag value) is modelled with `Except`.
-/

/-- Python truthiness-relevant values an INFO-dictionary entry can take:
a string value from `KEY=VALUE`, or the boolean `True` for a bare flag. -/
inductive PyVal where
  | str (s : String)
  | bTrue
deriving DecidableEq, Repr

/-- Rendering of a `PyVal` inside a Python f-string. -/
def pyValStr : PyVal → String
  | .str s => s
  | .bTrue => "True"

/-- Python truthiness of a `PyVal` (`""` is falsy, any other string and
`True` are truthy). -/
def pyTruthy : PyVal → Bool
  | .str s => s ≠ ""
  | .bTrue => true

/-- Dictionary lookup on an association list where a later binding of the
same key shadows an earlier one, matching Python dict-literal and
dict-assignment semantics. -/
def pyLookup {κ α : Type} [DecidableEq κ] (k : κ) : List (κ × α) → Option α
  | [] => none
  | p :: rest =>
    match pyLookup k rest with
    | some v => some v
    | none => if k = p.1 then some p.2 else none

/-- Python `str.upper()` (ASCII case mapping, which covers every string the
program manipulates). -/
def pyUpper (s : String) : String :=
  String.mk (s.data.map Char.toUpper)

/-- Whitespace as recognized by Python's `str.strip` / `\s` (ASCII part). -/
def pyIsSpace (c : Char) : Bool :=
  c = ' ' ∨ c = '\t' ∨ c = '\n' ∨ c = '\r' ∨ c = '\x0b' ∨ c = '\x0c'

/-- Python `str.strip()` on the character list of a string. -/
def pyStrip (l : List Char) : List Char :=
  ((l.dropWhile pyIsSpace).reverse.dropWhile pyIsSpace).reverse

/-- Worker for Python `str.split(sep)`: `cur` is the reversed current
segment. -/
def pySplitAux (sep : Char) (cur : List Char) : List Char → List (List Char)
  | [] => [cur.reverse]
  | c :: cs =>
    if c = sep then cur.reverse :: pySplitAux sep [] cs
    else pySplitAux sep (c :: cur) cs

/-- Python `str.split(sep)` for a one-character separator: no collapsing,
empty segments kept. -/
def pySplitChar (sep : Char) (s : List Char) : List (List Char) :=
  pySplitAux sep [] s

-- ──────────────────────────────────────────────────────────────────────────
-- risk_engine.py
-- ──────────────────────────────────────────────────────────────────────────

/-- `PHENOTYPE_MAP` from `risk_engine.py`: gene → (diplotype → phenotype). -/
def PHENOTYPE_MAP : List (String × List (String × String)) :=
  [("CYP2D6",
    [("*1/*1", "NM"), ("*1/*2", "RM"), ("*2/*2", "URM"), ("*1/*4", "IM"),
     ("*4/*4", "PM"), ("*4/*1", "IM"), ("*1/*3", "IM"), ("*3/*4", "PM"),
     ("*1/*5", "IM"), ("*5/*5", "PM"), ("*1/*6", "IM")]),
   ("CYP2C19",
    [("*1/*1", "NM"), ("*1/*2", "IM"), ("*2/*2", "PM"), ("*1/*3", "IM"),
     ("*2/*3", "PM"), ("*3/*3", "PM"), ("*1/*17", "RM"), ("*17/*17", "URM")]),
   ("CYP2C9",
    [("*1/*1", "NM"), ("*1/*2", "IM"), ("*1/*3", "IM"), ("*2/*2", "PM"),
     ("*2/*3", "IM"), ("*3/*3", "PM")]),
   ("SLCO1B1",
    [("*1/*1", "NF"), ("*1/*5", "DF"), ("*5/*5", "PF"), ("*1/*15", "DF"),
     ("*15/*15", "PF")]),
   ("TPMT",
    [("*1/*1", "NM"), ("*1/*3A", "IM"), ("*3A/*3A", "PM"), ("*1/*3C", "IM"),
     ("*3C/*3C", "PM"), ("*1/*2", "IM")]),
   ("DPYD",
    [("*1/*1", "NM"), ("*1/*2A", "IM"), ("*2A/*2A", "PM"), ("*1/*13", "IM"),
     ("*2A/*1", "IM")])]

/-- A row of `RISK_TABLE` (the fields authored per rule). -/
structure RiskRule where
  risk_label : String
  severity : String
  confidence_score : ℚ
  action : String
  dosing_adjustment : String
  monitoring : String
deriving DecidableEq, Repr

/-- `RISK_TABLE` from `risk_engine.py`: (gene, phenotype, drug) → rule. -/
def RISK_TABLE : List ((String × String × String) × RiskRule) :=
  [(("CYP2D6", "PM", "CODEINE"),
    ⟨"Toxic", "critical", 92/100, "Avoid Codeine", "N/A — contraindicated",
     "Switch to non-opioid analgesic (e.g., acetaminophen, NSAIDs)"⟩),
   (("CYP2D6", "NM", "CODEINE"),
    ⟨"Safe", "low", 92/100, "Use standard dosing", "None required",
     "Standard monitoring"⟩),
   (("CYP2D6", "IM", "CODEINE"),
    ⟨"Adjust Dosage", "moderate", 85/100, "Reduce dose or use alternative",
     "Reduce dose by 25-50%", "Monitor for reduced efficacy"⟩),
   (("CYP2D6", "RM", "CODEINE"),
    ⟨"Toxic", "critical", 90/100, "Avoid Codeine — ultra-rapid metabolism",
     "N/A — contraindicated due to rapid conversion to morphine",
     "Switch to non-opioid analgesic"⟩),
   (("CYP2D6", "URM", "CODEINE"),
    ⟨"Toxic", "critical", 92/100, "Avoid Codeine — ultra-rapid metabolism",
     "N/A — contraindicated due to rapid conversion to morphine",
     "Switch to non-opioid analgesic"⟩),
   (("CYP2C19", "PM", "CLOPIDOGREL"),
    ⟨"Ineffective", "high", 92/100, "Use alternative antiplatelet",
     "Switch to prasugrel or ticagrelor", "Monitor platelet function"⟩),
   (("CYP2C19", "NM", "CLOPIDOGREL"),
    ⟨"Safe", "low", 92/100, "Use standard dosing", "None required",
     "Standard monitoring"⟩),
   (("CYP2C19", "IM", "CLOPIDOGREL"),
    ⟨"Adjust Dosage", "moderate", 85/100, "Consider alternative antiplatelet",
     "Consider increased dose or alternative",
     "Monitor platelet function closely"⟩),
   (("CYP2C19", "RM", "CLOPIDOGREL"),
    ⟨"Safe", "low", 88/100, "Use standard dosing", "None required",
     "Standard monitoring"⟩),
   (("CYP2C19", "URM", "CLOPIDOGREL"),
    ⟨"Safe", "low", 85/100, "Use standard dosing",
     "None required — may have enhanced response", "Monitor for bleeding"⟩),
   (("CYP2C9", "IM", "WARFARIN"),
    ⟨"Adjust Dosage", "high", 90/100, "Reduce warfarin dose",
     "Reduce initial dose by 25-50%",
     "Frequent INR monitoring; target INR 2.0-3.0"⟩),
   (("CYP2C9", "PM", "WARFARIN"),
    ⟨"Toxic", "critical", 92/100, "Significantly reduce warfarin dose",
     "Reduce initial dose by 50-80%",
     "Very frequent INR monitoring; high bleeding risk"⟩),
   (("CYP2C9", "NM", "WARFARIN"),
    ⟨"Safe", "low", 92/100, "Use standard dosing", "None required",
     "Standard INR monitoring"⟩),
   (("SLCO1B1", "PF", "SIMVASTATIN"),
    ⟨"Toxic", "critical", 92/100, "Avoid simvastatin or use lowest dose",
     "Use alternative statin (rosuvastatin or pravastatin)",
     "Monitor for myopathy, check CK levels"⟩),
   (("SLCO1B1", "DF", "SIMVASTATIN"),
    ⟨"Adjust Dosage", "high", 88/100, "Limit simvastatin dose",
     "Do not exceed 20mg daily", "Monitor for muscle pain and CK levels"⟩),
   (("SLCO1B1", "NF", "SIMVASTATIN"),
    ⟨"Safe", "low", 92/100, "Use standard dosing", "None required",
     "Standard monitoring"⟩),
   (("TPMT", "PM", "AZATHIOPRINE"),
    ⟨"Toxic", "critical", 92/100,
     "Avoid azathioprine or drastically reduce dose",
     "Reduce dose to 10% of standard, or use alternative",
     "Frequent CBC monitoring; high risk of myelosuppression"⟩),
   (("TPMT", "IM", "AZATHIOPRINE"),
    ⟨"Adjust Dosage", "high", 88/100, "Reduce azathioprine dose",
     "Start at 50% of standard dose", "Regular CBC monitoring"⟩),
   (("TPMT", "NM", "AZATHIOPRINE"),
    ⟨"Safe", "low", 92/100, "Use standard dosing", "None required",
     "Standard monitoring"⟩),
   (("DPYD", "PM", "FLUOROURACIL"),
    ⟨"Toxic", "critical", 92/100, "Avoid fluorouracil",
     "N/A — contraindicated", "Use alternative chemotherapy regimen"⟩),
   (("DPYD", "IM", "FLUOROURACIL"),
    ⟨"Adjust Dosage", "high", 88/100, "Reduce fluorouracil dose",
     "Reduce dose by 50%",
     "Close monitoring for toxicity (mucositis, myelosuppression)"⟩),
   (("DPYD", "NM", "FLUOROURACIL"),
    ⟨"Safe", "low", 92/100, "Use standard dosing", "None required",
     "Standard monitoring"⟩)]

/-- `get_phenotype` from `risk_engine.py`: exact diplotype lookup, then a
retry with the two `/`-separated alleles swapped, else `"Unknown"`. -/
def get_phenotype (gene diplotype : String) : String :=
  let gene_map := (pyLookup gene PHENOTYPE_MAP).getD []
  let phenotype := pyLookup diplotype gene_map
  let phenotype :=
    if phenotype = none ∧ '/' ∈ diplotype.data then
      match pySplitChar '/' diplotype.data with
      | p0 :: p1 :: _ => pyLookup (String.mk (p1 ++ '/' :: p0)) gene_map
      | _ => none
    else phenotype
  match phenotype with
  | some p => if p = "" then "Unknown" else p
  | none => "Unknown"

/-- The fully populated verdict returned by `assess_risk`. -/
structure RiskVerdict where
  risk_label : String
  severity : String
  confidence_score : ℚ
  phenotype : String
  gene : String
  diplotype : String
  drug : String
  action : String
  dosing_adjustment : String
  monitoring : String
deriving DecidableEq, Repr

/-- `assess_risk` from `risk_engine.py`: uppercase the gene and drug,
resolve the phenotype, look the triple up in `RISK_TABLE`, and fall back to
the fixed default verdict on a miss. -/
def assess_risk (gene diplotype drug : String) : RiskVerdict :=
  let drug_upper := pyUpper drug
  let gene_upper := pyUpper gene
  let phenotype := get_phenotype gene_upper diplotype
  match pyLookup (gene_upper, phenotype, drug_upper) RISK_TABLE with
  | some r =>
    { risk_label := r.risk_label, severity := r.severity,
      confidence_score := r.confidence_score, phenotype := phenotype,
      gene := gene_upper, diplotype := diplotype, drug := drug_upper,
      action := r.action, dosing_adjustment := r.dosing_adjustment,
      monitoring := r.monitoring }
  | none =>
    { risk_label := "Unknown", severity := "unknown",
      confidence_score := 50/100, phenotype := phenotype,
      gene := gene_upper, diplotype := diplotype, drug := drug_upper,
      action := "Consult clinical pharmacogenomics specialist",
      dosing_adjustment := "No guideline available for this combination",
      monitoring := "Standard monitoring recommended" }

example : get_phenotype "CYP2D6" "*4/*4" = "PM" := by decide
example : get_phenotype "CYP2D6" "*4/*3" = "PM" := by decide
example : get_phenotype "NOPE" "*4/*4" = "Unknown" := by decide
example : (assess_risk "CYP2D6" "*4/*4" "codeine").risk_label = "Toxic" := by decide
example : (assess_risk "" "" "").confidence_score = 50/100 := rfl

-- ──────────────────────────────────────────────────────────────────────────
-- vcf_parser.py
-- ──────────────────────────────────────────────────────────────────────────

/-- `TARGET_GENES` from `vcf_parser.py` (a Python set; only membership is
ever used). -/
def TARGET_GENES : List String :=
  ["CYP2D6", "CYP2C19", "CYP2C9", "SLCO1B1", "TPMT", "DPYD"]

/-- One value of the `RSID_LOOKUP` table: `{"gene": ..., "star": ...}`. -/
structure RsEntry where
  gene : String
  star : String
deriving DecidableEq, Repr

/-- `RSID_LOOKUP` from `vcf_parser.py`, kept as the literal entry sequence.
The source dict literal binds the key `"rs1800584"` twice (`*3B`, then
`*3C`); Python dict literals resolve that later-bindings-win, which is what
`pyLookup` implements. -/
def RSID_LOOKUP : List (String × RsEntry) :=
  [("rs3892097", ⟨"CYP2D6", "*4"⟩),
   ("rs1065852", ⟨"CYP2D6", "*4"⟩),
   ("rs5030655", ⟨"CYP2D6", "*6"⟩),
   ("rs16947", ⟨"CYP2D6", "*2"⟩),
   ("rs1135840", ⟨"CYP2D6", "*2"⟩),
   ("rs28371706", ⟨"CYP2D6", "*17"⟩),
   ("rs28371725", ⟨"CYP2D6", "*41"⟩),
   ("rs35742686", ⟨"CYP2D6", "*3"⟩),
   ("rs5030867", ⟨"CYP2D6", "*7"⟩),
   ("rs5030865", ⟨"CYP2D6", "*8"⟩),
   ("rs1080985", ⟨"CYP2D6", "*2"⟩),
   ("rs28371703", ⟨"CYP2D6", "*15"⟩),
   ("rs769258", ⟨"CYP2D6", "*5"⟩),
   ("rs4244285", ⟨"CYP2C19", "*2"⟩),
   ("rs4986893", ⟨"CYP2C19", "*3"⟩),
   ("rs12248560", ⟨"CYP2C19", "*17"⟩),
   ("rs28399504", ⟨"CYP2C19", "*4"⟩),
   ("rs56337013", ⟨"CYP2C19", "*5"⟩),
   ("rs72552267", ⟨"CYP2C19", "*6"⟩),
   ("rs72558186", ⟨"CYP2C19", "*7"⟩),
   ("rs41291556", ⟨"CYP2C19", "*8"⟩),
   ("rs1799853", ⟨"CYP2C9", "*2"⟩),
   ("rs1057910", ⟨"CYP2C9", "*3"⟩),
   ("rs28371686", ⟨"CYP2C9", "*5"⟩),
   ("rs9332131", ⟨"CYP2C9", "*6"⟩),
   ("rs28371685", ⟨"CYP2C9", "*11"⟩),
   ("rs4149056", ⟨"SLCO1B1", "*5"⟩),
   ("rs2306283", ⟨"SLCO1B1", "*1b"⟩),
   ("rs4149015", ⟨"SLCO1B1", "*15"⟩),
   ("rs11045819", ⟨"SLCO1B1", "*1b"⟩),
   ("rs1800462", ⟨"TPMT", "*2"⟩),
   ("rs1800460", ⟨"TPMT", "*3A"⟩),
   ("rs1142345", ⟨"TPMT", "*3A"⟩),
   ("rs1800584", ⟨"TPMT", "*3B"⟩),
   ("rs1800584", ⟨"TPMT", "*3C"⟩),
   ("rs3918290", ⟨"DPYD", "*2A"⟩),
   ("rs55886062", ⟨"DPYD", "*13"⟩),
   ("rs67376798", ⟨"DPYD", "*HapB3"⟩),
   ("rs75017182", ⟨"DPYD", "*HapB3"⟩),
   ("rs56038477", ⟨"DPYD", "*HapB3"⟩)]

/-- `POSITION_GENE_MAP` from `vcf_parser.py`: (chromosome, start, end) →
gene, iterated in insertion order. -/
def POSITION_GENE_MAP : List ((String × Int × Int) × String) :=
  [(("chr22", 42522000, 42528000), "CYP2D6"),
   (("22", 42522000, 42528000), "CYP2D6"),
   (("chr22", 42126000, 42132000), "CYP2D6"),
   (("22", 42126000, 42132000), "CYP2D6"),
   (("chr10", 96520000, 96614000), "CYP2C19"),
   (("10", 96520000, 96614000), "CYP2C19"),
   (("chr10", 94762000, 94856000), "CYP2C19"),
   (("10", 94762000, 94856000), "CYP2C19"),
   (("chr10", 96698000, 96751000), "CYP2C9"),
   (("10", 96698000, 96751000), "CYP2C9"),
   (("chr10", 94938000, 94991000), "CYP2C9"),
   (("10", 94938000, 94991000), "CYP2C9"),
   (("chr12", 21283000, 21394000), "SLCO1B1"),
   (("12", 21283000, 21394000), "SLCO1B1"),
   (("chr6", 18128000, 18156000), "TPMT"),
   (("6", 18128000, 18156000), "TPMT"),
   (("chr1", 97543000, 97922000), "DPYD"),
   (("1", 97543000, 97922000), "DPYD")]

/-- The prefix of an item up to (excluding) its first `=`, as in Python's
`item.split("=", 1)[0]`. -/
def beforeFirstEq : List Char → List Char
  | [] => []
  | c :: cs => if c = '=' then [] else c :: beforeFirstEq cs

/-- The suffix of an item after its first `=`, as in Python's
`item.split("=", 1)[1]` (only used under a guard that `=` occurs). -/
def afterFirstEq : List Char → List Char
  | [] => []
  | c :: cs => if c = '=' then cs else afterFirstEq cs

/-- `parse_info_field` from `vcf_parser.py`: split the INFO column on `;`,
record `KEY=VALUE` items as stripped key/value pairs and bare items as
boolean flags (`True`).  Repeated dict assignment is later-wins, which
`pyLookup` implements over the appended list. -/
def parse_info_field (info : String) : List (String × PyVal) :=
  if info = "." ∨ info = "" then []
  else
    (pySplitChar ';' info.data).foldl
      (fun result item =>
        if '=' ∈ item then
          result ++ [(String.mk (pyStrip (beforeFirstEq item)),
                      PyVal.str (String.mk (pyStrip (afterFirstEq item))))]
        else
          result ++ [(String.mk (pyStrip item), PyVal.bTrue)])
      []

/-- `lookup_by_rsid` from `vcf_parser.py`: `RSID_LOOKUP.get(rsid, None)`. -/
def lookup_by_rsid (rsid : String) : Option RsEntry :=
  pyLookup rsid RSID_LOOKUP

/-- Scan of `POSITION_GENE_MAP.items()` in order, returning the first
region whose chromosome matches exactly and whose inclusive range contains
the position. -/
def posMapFind (chrom : String) (pos : Int) :
    List ((String × Int × Int) × String) → Option String
  | [] => none
  | (key, gene) :: rest =>
    if chrom = key.1 ∧ key.2.1 ≤ pos ∧ pos ≤ key.2.2 then some gene
    else posMapFind chrom pos rest

/-- `lookup_by_position` from `vcf_parser.py`. -/
def lookup_by_position (chrom : String) (pos : Int) : Option String :=
  posMapFind chrom pos POSITION_GENE_MAP

/-- Digit accumulator of Python `int(...)`, allowing single underscores
between (ASCII) digits as CPython does. -/
def pyIntDigitsGo (acc : Nat) : List Char → Option Nat
  | [] => some acc
  | ['_'] => none
  | '_' :: d :: rest =>
    if d.isDigit then pyIntDigitsGo (acc * 10 + (d.toNat - 48)) rest else none
  | d :: rest =>
    if d.isDigit then pyIntDigitsGo (acc * 10 + (d.toNat - 48)) rest else none

/-- The digit sequence of Python `int(...)`: nonempty, starts with a digit,
underscores only between digits. -/
def pyIntDigits : List Char → Option Nat
  | [] => none
  | d :: rest =>
    if d.isDigit then pyIntDigitsGo (d.toNat - 48) rest else none

/-- Python `int(str)`: surrounding whitespace stripped, optional sign, and
a digit sequence; `none` models the `ValueError` caught by the parser. -/
def pyInt (s : List Char) : Option Int :=
  match pyStrip s with
  | '+' :: rest => (pyIntDigits rest).map (fun n => (n : Int))
  | '-' :: rest => (pyIntDigits rest).map (fun n => -(n : Int))
  | rest => (pyIntDigits rest).map (fun n => (n : Int))

/-- `pre` is a prefix of `l` (Python `str.startswith`). -/
def pyStartsWith (pre l : List Char) : Bool :=
  pre.isPrefixOf l

/-- Worker for `re.split(r"\s+", ...)`: `inTok` says whether the scan is
inside a token (whose reversed prefix is `cur`) or inside a whitespace run
that has already emitted its preceding token. -/
def reSplitAux (inTok : Bool) (cur : List Char) : List Char → List (List Char)
  | [] => if inTok then [cur.reverse] else [[]]
  | c :: cs =>
    if pyIsSpace c then
      if inTok then cur.reverse :: reSplitAux false [] cs
      else reSplitAux false [] cs
    else reSplitAux true (c :: cur) cs

/-- `re.split(r"\s+", line)` over the characters of the line: splits on
maximal whitespace runs, with an empty leading/trailing piece when the line
starts/ends with whitespace. -/
def reSplitWs (l : List Char) : List (List Char) :=
  reSplitAux true [] l

/-- The column split of a candidate data line: split on tabs, and fall back
to splitting on whitespace runs when that yields fewer than 8 columns. -/
def partsOf (line : List Char) : List (List Char) :=
  let parts := pySplitChar '\t' line
  if parts.length < 8 then reSplitWs line else parts

/-- A materialized variant record of `parse_vcf_content`.  The `rsid` and
`star` fields hold `PyVal` because a bare `STAR`/`RS` INFO flag makes the
Python code store the boolean `True` there. -/
structure VariantCall where
  rsid : PyVal
  gene : String
  star : PyVal
  chrom : String
  pos : Int
  ref : String
  alt : String
deriving DecidableEq, Repr

/-- The three-tier gene/star/rsid resolution of `parse_vcf_content`
(Strategy 1: `GENE`/`STAR`/`RS` INFO tags; Strategy 2: rsID lookup;
Strategy 3: genomic-position lookup).  A bare `GENE` INFO flag makes the
Python code call `.upper()` on `True`, an `AttributeError`, modelled as
`Except.error`. -/
def resolveVariant (info_dict : List (String × PyVal)) (rsid chrom : String)
    (pos : Int) : Except String (Option String × PyVal × PyVal) :=
  match pyLookup "GENE" info_dict with
  | some (.str g) =>
    .ok (some (pyUpper g),
         (pyLookup "STAR" info_dict).getD (.str ""),
         (pyLookup "RS" info_dict).getD (.str rsid))
  | some .bTrue => .error "AttributeError: 'bool' object has no attribute 'upper'"
  | none =>
    if rsid ≠ "." ∧ pyStartsWith "rs".data rsid.data then
      match lookup_by_rsid rsid with
      | some entry => .ok (some entry.gene, .str entry.star, .str rsid)
      | none =>
        match lookup_by_position chrom pos with
        | some g =>
          .ok (some g, .str "",
               .str (if rsid ≠ "." then rsid
                     else "pos_" ++ chrom ++ "_" ++ toString pos))
        | none => .ok (none, .str "", .str rsid)
    else
      match lookup_by_position chrom pos with
      | some g =>
        .ok (some g, .str "",
             .str (if rsid ≠ "." then rsid
                   else "pos_" ++ chrom ++ "_" ++ toString pos))
      | none => .ok (none, .str "", .str rsid)

/-- The mutable state of the `parse_vcf_content` loop. -/
structure ParseState where
  variants : List VariantCall
  genes_found : List String
  parsing_errors : List String
  total_lines : Nat
  vcf_version : String
deriving DecidableEq, Repr

/-- The initial loop state of `parse_vcf_content`. -/
def initState : ParseState :=
  ⟨[], [], [], 0, "Unknown"⟩

/-- The line-level error message for a line with fewer than 5 columns. -/
def insufficientMsg (n k : Nat) : String :=
  "Line " ++ toString n ++ ": insufficient columns (" ++ toString k ++
    " found, minimum 5 expected)"

/-- The line-level error message for an unparseable position column. -/
def invalidPosMsg (n : Nat) (pos_str : List Char) : String :=
  "Line " ++ toString n ++ ": invalid position '" ++ String.mk pos_str ++ "'"

/-- The marker of a format-version header line. -/
def ffMarker : List Char := "##fileformat=".data

/-- The comment/header marker. -/
def hashMarker : List Char := "#".data

/-- One iteration of the `parse_vcf_content` loop on line number `n`. -/
def processLine (n : Nat) (line : List Char) (st : ParseState) :
    Except String ParseState :=
  if pyStartsWith ffMarker line then
    .ok { st with vcf_version := String.mk (pyStrip (afterFirstEq line)) }
  else if pyStartsWith hashMarker line then
    .ok st
  else
    let stripped := pyStrip line
    if stripped = [] then
      .ok st
    else
      let st := { st with total_lines := st.total_lines + 1 }
      let parts := partsOf stripped
      if parts.length < 5 then
        .ok { st with parsing_errors :=
                st.parsing_errors ++ [insufficientMsg n parts.length] }
      else
        let chrom := parts.getD 0 []
        let pos_str := parts.getD 1 []
        let rsid := if 2 < parts.length then parts.getD 2 [] else ['.']
        let ref := if 3 < parts.length then parts.getD 3 [] else ['.']
        let alt := if 4 < parts.length then parts.getD 4 [] else ['.']
        let info := if 7 < parts.length then parts.getD 7 [] else []
        match pyInt pos_str with
        | none =>
          .ok { st with parsing_errors :=
                  st.parsing_errors ++ [invalidPosMsg n pos_str] }
        | some pos_int =>
          let info_dict := parse_info_field (String.mk info)
          match resolveVariant info_dict (String.mk rsid) (String.mk chrom)
              pos_int with
          | .error e => .error e
          | .ok (gene?, star, variant_rsid) =>
            match gene? with
            | none => .ok st
            | some gene =>
              if gene ∈ TARGET_GENES then
                .ok { st with
                  genes_found :=
                    if gene ∈ st.genes_found then st.genes_found
                    else st.genes_found ++ [gene],
                  variants := st.variants ++
                    [⟨variant_rsid, gene, star, String.mk chrom, pos_int,
                      String.mk ref, String.mk alt⟩] }
              else .ok st

/-- The `parse_vcf_content` loop over the numbered lines. -/
def processLines : List (List Char) → Nat → ParseState →
    Except String ParseState
  | [], _, st => .ok st
  | l :: ls, n, st =>
    match processLine n l st with
    | .error e => .error e
    | .ok st' => processLines ls (n + 1) st'

/-- Ascending insertion for `sortStrings`. -/
def insertSorted (x : String) : List String → List String
  | [] => [x]
  | y :: ys => if x ≤ y then x :: y :: ys else y :: insertSorted x ys

/-- Python `sorted(...)` on strings (code-point order). -/
def sortStrings (l : List String) : List String :=
  l.foldr insertSorted []

/-- The result dictionary of `parse_vcf_content`. -/
structure VcfOutcome where
  variants : List VariantCall
  genes_found : List String
  total_variants : Nat
  total_lines_processed : Nat
  vcf_version : String
  parsing_errors : List String
deriving DecidableEq, Repr

/-- `parse_vcf_content` from `vcf_parser.py`: strip the document, split it
into lines, run the per-line loop, and package the final state. -/
def parse_vcf_content (content : String) : Except String VcfOutcome :=
  let lines := pySplitChar '\n' (pyStrip content.data)
  match processLines lines 1 initState with
  | .error e => .error e
  | .ok st =>
    .ok { variants := st.variants,
          genes_found := sortStrings st.genes_found,
          total_variants := st.variants.length,
          total_lines_processed := st.total_lines,
          vcf_version := st.vcf_version,
          parsing_errors := st.parsing_errors }

example :
    parse_vcf_content "1\t97543001\trs3918290\tA\tT" =
      .ok ⟨[⟨.str "rs3918290", "DPYD", .str "*2A", "1", 97543001, "A", "T"⟩],
           ["DPYD"], 1, 1, "Unknown", []⟩ := rfl

example :
    parse_vcf_content "##fileformat=VCFv4.2\na b c\n22 42523000 . A T" =
      .ok ⟨[⟨.str "pos_22_42523000", "CYP2D6", .str "", "22", 42523000,
            "A", "T"⟩],
           ["CYP2D6"], 1, 2, "VCFv4.2",
           ["Line 2: insufficient columns (3 found, minimum 5 expected)"]⟩ :=
  rfl

example :
    parse_vcf_content "7\t1000\t.\tA\tT\t.\t.\tGENE=cyp2d6;STAR=*4" =
      .ok ⟨[⟨.str ".", "CYP2D6", .str "*4", "7", 1000, "A", "T"⟩],
           ["CYP2D6"], 1, 1, "Unknown", []⟩ := rfl

example :
    parse_vcf_content "7\t1000\t.\tA\tT\t.\t.\tGENE" =
      .error "AttributeError: 'bool' object has no attribute 'upper'" := rfl

-- ──────────────────────────────────────────────────────────────────────────
-- Helper lemmas
-- ──────────────────────────────────────────────────────────────────────────

/-- A successful `pyLookup` returns a binding present in the list. -/
theorem pyLookup_mem {κ α : Type} [DecidableEq κ] {k : κ} {v : α} :
    ∀ {d : List (κ × α)}, pyLookup k d = some v → (k, v) ∈ d := by
  intro d
  induction d with
  | nil => intro h; simp [pyLookup] at h
  | cons p rest ih =>
    intro h
    rw [pyLookup] at h
    cases hr : pyLookup k rest with
    | some w =>
      rw [hr] at h
      cases h
      exact List.mem_cons_of_mem _ (ih hr)
    | none =>
      rw [hr] at h
      by_cases hk : k = p.1
      · rw [if_pos hk] at h
        cases h
        have : p = (k, p.2) := by
          cases p
          simp_all
        rw [this] at *
        exact List.mem_cons_self _ _
      · rw [if_neg hk] at h
        cases h

example : pyLookup "b" [("a", 1), ("b", 2), ("b", 3)] = some 3 := rfl

-- ──────────────────────────────────────────────────────────────────────────
-- Claim C10
-- ──────────────────────────────────────────────────────────────────────────

/-- C10: `assess_risk "CYP2D6" "*4/*4" "CODEINE"` resolves the diplotype to
phenotype `PM` and returns the `(CYP2D6, PM, CODEINE)` rule verbatim: risk
label `Toxic`, severity `critical`, confidence `0.92`, together with the
rule's action, dosing adjustment and monitoring text. -/
theorem assess_risk_codeine_pm_toxic :
    assess_risk "CYP2D6" "*4/*4" "CODEINE" =
      { risk_label := "Toxic", severity := "critical",
        confidence_score := 92/100, phenotype := "PM", gene := "CYP2D6",
        diplotype := "*4/*4", drug := "CODEINE", action := "Avoid Codeine",
        dosing_adjustment := "N/A — contraindicated",
        monitoring :=
          "Switch to non-opioid analgesic (e.g., acetaminophen, NSAIDs)" } :=
  rfl

-- ──────────────────────────────────────────────────────────────────────────
-- Claim C1
-- ──────────────────────────────────────────────────────────────────────────

set_option maxHeartbeats 1000000 in
/-- C1, counterexample: the default verdict's action string is the code's
"Consult clinical pharmacogenomics specialist", not the claimed "consult a
clinical pharmacogenomics specialist", already at the all-empty input. -/
theorem assess_risk_default_action_wording_differs :
    ¬ (assess_risk "" "" "").action =
        "consult a clinical pharmacogenomics specialist" := by
  decide

set_option maxHeartbeats 1000000 in
/-- C1 (amended): `assess_risk` is total — every (gene, diplotype, drug)
string triple yields a fully populated `RiskVerdict` — and whenever the
(upper-cased gene, resolved phenotype, upper-cased drug) triple has no
authored rule in `RISK_TABLE` (in particular whenever the phenotype is
`Unknown`), the result is the fixed default verdict: risk label `Unknown`,
severity `unknown`, confidence `0.50`, action "Consult clinical
pharmacogenomics specialist", dosing note "No guideline available for this
combination", monitoring note "Standard monitoring recommended". -/
theorem assess_risk_default_verdict (gene diplotype drug : String)
    (h : pyLookup (pyUpper gene, get_phenotype (pyUpper gene) diplotype,
            pyUpper drug) RISK_TABLE = none) :
    assess_risk gene diplotype drug =
      { risk_label := "Unknown", severity := "unknown",
        confidence_score := 50/100,
        phenotype := get_phenotype (pyUpper gene) diplotype,
        gene := pyUpper gene, diplotype := diplotype, drug := pyUpper drug,
        action := "Consult clinical pharmacogenomics specialist",
        dosing_adjustment := "No guideline available for this combination",
        monitoring := "Standard monitoring recommended" } := by
  unfold assess_risk
  simp only [h]

set_option maxHeartbeats 1000000 in
/-- C1 witness: the all-empty triple misses `RISK_TABLE` and receives the
default verdict. -/
theorem assess_risk_default_verdict_witness :
    pyLookup (pyUpper "", get_phenotype (pyUpper "") "", pyUpper "")
        RISK_TABLE = none ∧
    assess_risk "" "" "" =
      { risk_label := "Unknown", severity := "unknown",
        confidence_score := 50/100,
        phenotype := get_phenotype (pyUpper "") "",
        gene := pyUpper "", diplotype := "", drug := pyUpper "",
        action := "Consult clinical pharmacogenomics specialist",
        dosing_adjustment := "No guideline available for this combination",
        monitoring := "Standard monitoring recommended" } :=
  ⟨rfl, assess_risk_default_verdict "" "" "" rfl⟩

-- ──────────────────────────────────────────────────────────────────────────
-- Claim C8
-- ──────────────────────────────────────────────────────────────────────────

/-- C8: the `RSID_LOOKUP` source authors both a `TPMT *3B` and a `TPMT *3C`
mapping under the single key `"rs1800584"`; the dict-literal collision is
resolved last-wins, so `lookup_by_rsid "rs1800584"` returns `*3C` and the
earlier `*3B` mapping is unreachable through any lookup. -/
theorem rsid_rs1800584_last_wins :
    ("rs1800584", (⟨"TPMT", "*3B"⟩ : RsEntry)) ∈ RSID_LOOKUP ∧
    ("rs1800584", (⟨"TPMT", "*3C"⟩ : RsEntry)) ∈ RSID_LOOKUP ∧
    lookup_by_rsid "rs1800584" = some ⟨"TPMT", "*3C"⟩ ∧
    ∀ r : String, ∀ e : RsEntry,
      lookup_by_rsid r = some e → e ≠ ⟨"TPMT", "*3B"⟩ := by
  refine ⟨by decide, by decide, by decide, ?_⟩
  intro r e h he
  subst he
  have hr : r = "rs1800584" := by
    have hmem := pyLookup_mem h
    have hall : ∀ p ∈ RSID_LOOKUP,
        p.2 = (⟨"TPMT", "*3B"⟩ : RsEntry) → p.1 = "rs1800584" := by decide
    exact hall _ hmem rfl
  subst hr
  have : lookup_by_rsid "rs1800584" = some ⟨"TPMT", "*3C"⟩ := by decide
  rw [this] at h
  exact (by decide : (⟨"TPMT", "*3C"⟩ : RsEntry) ≠ ⟨"TPMT", "*3B"⟩)
    (Option.some.inj h)

/-- C8 witness: applying the unreachability clause at a concrete, satisfied
hypothesis (`rs1800462` resolves, and its entry is not the shadowed one). -/
theorem rsid_rs1800584_last_wins_witness :
    lookup_by_rsid "rs1800462" = some ⟨"TPMT", "*2"⟩ ∧
    (⟨"TPMT", "*2"⟩ : RsEntry) ≠ ⟨"TPMT", "*3B"⟩ :=
  ⟨rfl, rsid_rs1800584_last_wins.2.2.2 "rs1800462" ⟨"TPMT", "*2"⟩ rfl⟩

-- ──────────────────────────────────────────────────────────────────────────
-- Claim C2
-- ──────────────────────────────────────────────────────────────────────────

/-- C2: the resolver's tiers are evaluated in strict priority order.  If
the structured attributes bind `GENE` to a string value, the record
resolves to that value upper-cased, with the `STAR` binding (else the empty
string) as star allele and the `RS` binding (else the record's marker id)
as effective marker id — for every marker id, chromosome and position, so
the marker-lookup and region-lookup tiers are never consulted.  And with no
`GENE` key, a marker id that hits `RSID_LOOKUP` resolves by that hit for
every chromosome and position, so the region tier is not consulted. -/
theorem resolver_gene_tag_priority :
    (∀ (info_dict : List (String × PyVal)) (g : String)
        (rsid chrom : String) (pos : Int),
      pyLookup "GENE" info_dict = some (.str g) →
      resolveVariant info_dict rsid chrom pos =
        .ok (some (pyUpper g),
             (pyLookup "STAR" info_dict).getD (.str ""),
             (pyLookup "RS" info_dict).getD (.str rsid))) ∧
    (∀ (info_dict : List (String × PyVal)) (rsid chrom : String)
        (pos : Int) (entry : RsEntry),
      pyLookup "GENE" info_dict = none →
      rsid ≠ "." →
      pyStartsWith "rs".data rsid.data = true →
      lookup_by_rsid rsid = some entry →
      resolveVariant info_dict rsid chrom pos =
        .ok (some entry.gene, .str entry.star, .str rsid)) := by
  constructor
  · intro info_dict g rsid chrom pos h
    simp only [resolveVariant]
    rw [h]
  · intro info_dict rsid chrom pos entry hg hdot hrs hlook
    simp only [resolveVariant]
    rw [hg]
    rw [if_pos ⟨hdot, hrs⟩]
    rw [hlook]

/-- C2 witness: a record tagged `GENE=cyp2d6` whose marker id would
independently resolve to CYP2C19 via the rsID tier and whose position lies
in a CYP2C19 region still resolves to `CYP2D6`. -/
theorem resolver_gene_tag_priority_witness :
    resolveVariant [("GENE", PyVal.str "cyp2d6")] "rs4244285" "10"
        96522000 =
      .ok (some "CYP2D6", .str "", .str "rs4244285") := by
  have h := resolver_gene_tag_priority.1 [("GENE", PyVal.str "cyp2d6")]
    "cyp2d6" "rs4244285" "10" 96522000 rfl
  rw [h]
  rfl

-- ──────────────────────────────────────────────────────────────────────────
-- Parsing helper lemmas (splitting and stripping)
-- ──────────────────────────────────────────────────────────────────────────

/-- Splitting pulls off a separator-free prefix before a separator. -/
theorem pySplitAux_append_sep (sep : Char) (cur A B : List Char)
    (hA : sep ∉ A) :
    pySplitAux sep cur (A ++ sep :: B) =
      (cur.reverse ++ A) :: pySplitAux sep [] B := by
  induction A generalizing cur with
  | nil => simp [pySplitAux]
  | cons a A ih =>
    have ha : ¬ a = sep := fun h => hA (h ▸ List.mem_cons_self a A)
    rw [List.cons_append, pySplitAux]
    simp only [if_neg ha]
    rw [ih _ (fun h => hA (List.mem_cons_of_mem _ h))]
    simp

/-- Splitting a separator-free list yields a single segment. -/
theorem pySplitAux_no_sep (sep : Char) (cur A : List Char) (hA : sep ∉ A) :
    pySplitAux sep cur A = [cur.reverse ++ A] := by
  induction A generalizing cur with
  | nil => simp [pySplitAux]
  | cons a A ih =>
    have ha : ¬ a = sep := fun h => hA (h ▸ List.mem_cons_self a A)
    rw [pySplitAux]
    simp only [if_neg ha]
    rw [ih _ (fun h => hA (List.mem_cons_of_mem _ h))]
    simp

/-- `dropWhile` is the identity when the head fails the predicate. -/
theorem dropWhile_eq_self_of_head (p : Char → Bool) (l : List Char)
    (h : ∀ c, l.head? = some c → p c = false) : l.dropWhile p = l := by
  cases l with
  | nil => rfl
  | cons a t =>
    rw [List.dropWhile_cons, h a rfl]
    simp

/-- `pyStrip` is the identity when neither end is whitespace. -/
theorem pyStrip_eq_self (l : List Char)
    (h1 : ∀ c, l.head? = some c → pyIsSpace c = false)
    (h2 : ∀ c, l.getLast? = some c → pyIsSpace c = false) :
    pyStrip l = l := by
  unfold pyStrip
  rw [dropWhile_eq_self_of_head _ l h1]
  rw [dropWhile_eq_self_of_head _ l.reverse
    (fun c hc => h2 c (by rwa [List.head?_reverse] at hc))]
  exact List.reverse_reverse l

-- ──────────────────────────────────────────────────────────────────────────
-- Claim C7
-- ──────────────────────────────────────────────────────────────────────────

/-- C7: a candidate data line (not a format-version line, not a
comment/header line, not blank) whose column split yields fewer than 5
fields appends exactly one insufficient-columns error naming its line
number, leaves the variants untouched, and parsing continues with the
subsequent lines at the next line number. -/
theorem short_line_error_and_continue (n : Nat) (line : List Char)
    (st : ParseState)
    (h1 : pyStartsWith ffMarker line = false)
    (h2 : pyStartsWith hashMarker line = false)
    (h3 : pyStrip line ≠ [])
    (h4 : (partsOf (pyStrip line)).length < 5) :
    processLine n line st = .ok { st with
        total_lines := st.total_lines + 1,
        parsing_errors := st.parsing_errors ++
          [insufficientMsg n (partsOf (pyStrip line)).length] } ∧
    ∀ rest : List (List Char),
      processLines (line :: rest) n st =
        processLines rest (n + 1) { st with
          total_lines := st.total_lines + 1,
          parsing_errors := st.parsing_errors ++
            [insufficientMsg n (partsOf (pyStrip line)).length] } := by
  have hmain : processLine n line st = .ok { st with
      total_lines := st.total_lines + 1,
      parsing_errors := st.parsing_errors ++
        [insufficientMsg n (partsOf (pyStrip line)).length] } := by
    unfold processLine
    simp [h1, h2, h3, h4]
  refine ⟨hmain, ?_⟩
  intro rest
  simp only [processLines, hmain]

/-- C7 witness: a three-column line at line number 2, starting from the
initial state. -/
theorem short_line_error_and_continue_witness :
    processLine 2 ("a b c").data initState = .ok { initState with
        total_lines := 1,
        parsing_errors :=
          ["Line 2: insufficient columns (3 found, minimum 5 expected)"] } := by
  have h := (short_line_error_and_continue 2 ("a b c").data initState
    (by decide) (by decide) (by decide) (by decide)).1
  rw [h]
  rfl

-- ──────────────────────────────────────────────────────────────────────────
-- Claim C9
-- ──────────────────────────────────────────────────────────────────────────

/-- The canonical region-fallback data line of the C9 scenario: marker id
`.`, chromosome `22`, position 42523000, and a bare `.` INFO column (no
structured attributes), around arbitrary REF/ALT columns. -/
def c9RegionLine (ref alt : List Char) : List Char :=
  "22".data ++ '\t' :: ("42523000".data ++ '\t' :: (".".data ++ '\t' ::
    (ref ++ '\t' :: (alt ++ '\t' :: (".".data ++ '\t' ::
      (".".data ++ '\t' :: ".".data))))))

/-- The tab split of the C9 line recovers its eight columns. -/
theorem c9_split (ref alt : List Char) (href : '\t' ∉ ref)
    (halt : '\t' ∉ alt) :
    pySplitChar '\t' (c9RegionLine ref alt) =
      ["22".data, "42523000".data, ".".data, ref, alt, ".".data, ".".data,
       ".".data] := by
  unfold c9RegionLine pySplitChar
  rw [pySplitAux_append_sep _ _ _ _ (by decide)]
  rw [pySplitAux_append_sep _ _ _ _ (by decide)]
  rw [pySplitAux_append_sep _ _ _ _ (by decide)]
  rw [pySplitAux_append_sep _ _ _ _ href]
  rw [pySplitAux_append_sep _ _ _ _ halt]
  rw [pySplitAux_append_sep _ _ _ _ (by decide)]
  rw [pySplitAux_append_sep _ _ _ _ (by decide)]
  rw [pySplitAux_no_sep _ _ _ (by decide)]
  simp

/-- Stripping leaves the C9 line unchanged. -/
theorem c9_strip (ref alt : List Char) :
    pyStrip (c9RegionLine ref alt) = c9RegionLine ref alt := by
  apply pyStrip_eq_self
  · intro c hc
    have h0 : (c9RegionLine ref alt).head? = some '2' := rfl
    rw [h0] at hc
    cases hc
    decide
  · intro c hc
    rw [← List.head?_reverse] at hc
    unfold c9RegionLine at hc
    simp only [List.reverse_append, List.reverse_cons, List.append_assoc]
      at hc
    simp only [List.reverse_nil, List.nil_append, List.cons_append,
      List.head?_cons] at hc
    cases hc
    decide

/-- C9: a data line with marker id `.`, chromosome `22`, position 42523000
and no structured attributes yields (for any REF/ALT columns, any line
number and any prior state) exactly one VariantCall with gene `CYP2D6`,
synthesized effective marker id `pos_22_42523000`, and empty star allele;
and the region table is inclusive at both range ends and matches the
chromosome both with and without the `chr` prefix. -/
theorem region_fallback_variant (n : Nat) (st : ParseState)
    (ref alt : List Char) (href : '\t' ∉ ref) (halt : '\t' ∉ alt) :
    processLine n (c9RegionLine ref alt) st = .ok { st with
        total_lines := st.total_lines + 1,
        genes_found := if "CYP2D6" ∈ st.genes_found then st.genes_found
                       else st.genes_found ++ ["CYP2D6"],
        variants := st.variants ++
          [⟨.str "pos_22_42523000", "CYP2D6", .str "", "22", 42523000,
            String.mk ref, String.mk alt⟩] } ∧
    lookup_by_position "22" 42522000 = some "CYP2D6" ∧
    lookup_by_position "22" 42528000 = some "CYP2D6" ∧
    lookup_by_position "chr22" 42522000 = some "CYP2D6" ∧
    lookup_by_position "chr22" 42528000 = some "CYP2D6" := by
  refine ⟨?_, by decide, by decide, by decide, by decide⟩
  have hff : pyStartsWith ffMarker (c9RegionLine ref alt) = false := rfl
  have hh : pyStartsWith hashMarker (c9RegionLine ref alt) = false := rfl
  have hne : c9RegionLine ref alt ≠ [] := by
    intro h
    have h2 : (c9RegionLine ref alt).head? = some '2' := rfl
    rw [h] at h2
    cases h2
  have hstrip := c9_strip ref alt
  have hsplit := c9_split ref alt href halt
  have hparts : partsOf (c9RegionLine ref alt) =
      ["22".data, "42523000".data, ".".data, ref, alt, ".".data, ".".data,
       ".".data] := by
    unfold partsOf
    rw [hsplit]
    simp
  unfold processLine
  simp only [hff, hh, Bool.false_eq_true, if_false, hstrip, hparts]
  rw [if_neg hne]
  rfl

/-- C9 witness: the line `22 42523000 . A T . . .` appended to the initial
state. -/
theorem region_fallback_variant_witness :
    processLine 1 (c9RegionLine "A".data "T".data) initState =
      .ok { initState with
        total_lines := 1,
        genes_found := ["CYP2D6"],
        variants := [⟨.str "pos_22_42523000", "CYP2D6", .str "", "22",
          42523000, "A", "T"⟩] } := by
  have h := (region_fallback_variant 1 initState "A".data "T".data
    (by decide) (by decide)).1
  rw [h]
  rfl

/-- A non-empty list read as Python truthy/falsy. -/
theorem isEmpty_eq_false_of_ne_nil {l : List Char} (h : l ≠ []) :
    l.isEmpty = false := by
  cases l with
  | nil => cases h rfl
  | cons a t => rfl

/-- The branch structure of `processLine` with its local bindings
inlined. -/
theorem processLine_eq (n : Nat) (line : List Char) (st : ParseState) :
    processLine n line st =
      if pyStartsWith ffMarker line then
        .ok { st with vcf_version := String.mk (pyStrip (afterFirstEq line)) }
      else if pyStartsWith hashMarker line then
        .ok st
      else if pyStrip line = [] then
        .ok st
      else if (partsOf (pyStrip line)).length < 5 then
        .ok { st with
          total_lines := st.total_lines + 1,
          parsing_errors := st.parsing_errors ++
            [insufficientMsg n (partsOf (pyStrip line)).length] }
      else
        match pyInt ((partsOf (pyStrip line)).getD 1 []) with
        | none =>
          .ok { st with
            total_lines := st.total_lines + 1,
            parsing_errors := st.parsing_errors ++
              [invalidPosMsg n ((partsOf (pyStrip line)).getD 1 [])] }
        | some pos_int =>
          match resolveVariant
              (parse_info_field (String.mk
                (if 7 < (partsOf (pyStrip line)).length then
                  (partsOf (pyStrip line)).getD 7 [] else [])))
              (String.mk
                (if 2 < (partsOf (pyStrip line)).length then
                  (partsOf (pyStrip line)).getD 2 [] else ['.']))
              (String.mk ((partsOf (pyStrip line)).getD 0 []))
              pos_int with
          | .error e => .error e
          | .ok (gene?, star, variant_rsid) =>
            match gene? with
            | none => .ok { st with total_lines := st.total_lines + 1 }
            | some gene =>
              if gene ∈ TARGET_GENES then
                .ok { st with
                  total_lines := st.total_lines + 1,
                  genes_found :=
                    if gene ∈ st.genes_found then st.genes_found
                    else st.genes_found ++ [gene],
                  variants := st.variants ++
                    [⟨variant_rsid, gene, star,
                      String.mk ((partsOf (pyStrip line)).getD 0 []),
                      pos_int,
                      String.mk
                        (if 3 < (partsOf (pyStrip line)).length then
                          (partsOf (pyStrip line)).getD 3 [] else ['.']),
                      String.mk
                        (if 4 < (partsOf (pyStrip line)).length then
                          (partsOf (pyStrip line)).getD 4 [] else ['.'])⟩] }
              else .ok { st with total_lines := st.total_lines + 1 } :=
  rfl

/-- The data lines counted by the specification: not blank, not starting
with the comment/header marker, not starting with the format-version
marker. -/
def specCountedLine (l : List Char) : Bool :=
  !(pyStartsWith ffMarker l) && !(pyStartsWith hashMarker l) &&
    !(pyStrip l).isEmpty

/-- One loop iteration increments `total_lines` exactly on counted
lines. -/
theorem processLine_total_lines (n : Nat) (l : List Char)
    (st st' : ParseState) (h : processLine n l st = .ok st') :
    st'.total_lines = st.total_lines +
      (if specCountedLine l then 1 else 0) := by
  rw [processLine_eq] at h
  repeat' split at h
  all_goals cases h
  all_goals simp_all [specCountedLine, isEmpty_eq_false_of_ne_nil]

/-- One loop iteration only ever appends variants with a target gene. -/
theorem processLine_variants (n : Nat) (l : List Char) (st st' : ParseState)
    (h : processLine n l st = .ok st') :
    ∀ v ∈ st'.variants, v ∈ st.variants ∨ v.gene ∈ TARGET_GENES := by
  rw [processLine_eq] at h
  repeat' split at h
  all_goals cases h
  all_goals intro v hv
  all_goals try exact Or.inl hv
  all_goals
    rcases List.mem_append.mp hv with hv1 | hv2
  all_goals try exact Or.inl hv1
  all_goals simp only [List.mem_singleton] at hv2
  all_goals subst hv2
  all_goals exact Or.inr (by assumption)

/-- The loop's final `total_lines` counts the counted lines. -/
theorem processLines_total_lines :
    ∀ (lines : List (List Char)) (n : Nat) (st st' : ParseState),
      processLines lines n st = .ok st' →
      st'.total_lines = st.total_lines + lines.countP specCountedLine := by
  intro lines
  induction lines with
  | nil =>
    intro n st st' h
    cases h
    simp
  | cons l ls ih =>
    intro n st st' h
    rw [processLines] at h
    cases hpl : processLine n l st with
    | error e =>
      rw [hpl] at h
      cases h
    | ok st1 =>
      rw [hpl] at h
      have h1 := processLine_total_lines n l st st1 hpl
      have h2 := ih (n + 1) st1 st' h
      rw [List.countP_cons]
      by_cases hc : specCountedLine l = true <;>
        simp [hc] at h1 ⊢ <;> omega

/-- Every variant in the loop's final state was present initially or has a
target gene. -/
theorem processLines_variants :
    ∀ (lines : List (List Char)) (n : Nat) (st st' : ParseState),
      processLines lines n st = .ok st' →
      ∀ v ∈ st'.variants, v ∈ st.variants ∨ v.gene ∈ TARGET_GENES := by
  intro lines
  induction lines with
  | nil =>
    intro n st st' h
    cases h
    intro v hv
    exact Or.inl hv
  | cons l ls ih =>
    intro n st st' h
    rw [processLines] at h
    cases hpl : processLine n l st with
    | error e =>
      rw [hpl] at h
      cases h
    | ok st1 =>
      rw [hpl] at h
      intro v hv
      rcases ih (n + 1) st1 st' h v hv with h1 | h1
      · exact processLine_variants n l st st1 hpl v h1
      · exact Or.inr h1

/-- The branch structure of `parse_vcf_content` with its local binding
inlined. -/
theorem parse_vcf_content_eq (content : String) :
    parse_vcf_content content =
      match processLines (pySplitChar '\n' (pyStrip content.data)) 1
          initState with
      | .error e => .error e
      | .ok st =>
        .ok { variants := st.variants,
              genes_found := sortStrings st.genes_found,
              total_variants := st.variants.length,
              total_lines_processed := st.total_lines,
              vcf_version := st.vcf_version,
              parsing_errors := st.parsing_errors } :=
  rfl

/-- C5: whenever parsing returns an outcome, `total_lines_processed` is the
number of lines of the stripped document that are not blank and do not
start with the comment/header or format-version markers — regardless of
how many of them produced errors or variants. -/
theorem parse_counts_data_lines (content : String) (out : VcfOutcome)
    (h : parse_vcf_content content = .ok out) :
    out.total_lines_processed =
      (pySplitChar '\n' (pyStrip content.data)).countP specCountedLine := by
  rw [parse_vcf_content_eq] at h
  cases hpl : processLines (pySplitChar '\n' (pyStrip content.data)) 1
      initState with
  | error e =>
    rw [hpl] at h
    cases h
  | ok st =>
    rw [hpl] at h
    cases h
    have := processLines_total_lines _ 1 initState st hpl
    simpa [initState] using this

/-- C5 witness: a document with one header, one blank, one error line and
one data line counts two lines. -/
theorem parse_counts_data_lines_witness :
    (2 : Nat) =
      (pySplitChar '\n'
        (pyStrip ("##fileformat=VCFv4.2\na b c\n\n22 42523000 . A T").data)
        ).countP specCountedLine := by
  have h := parse_counts_data_lines
    "##fileformat=VCFv4.2\na b c\n\n22 42523000 . A T"
    ⟨[⟨.str "pos_22_42523000", "CYP2D6", .str "", "22", 42523000, "A", "T"⟩],
     ["CYP2D6"], 1, 2, "VCFv4.2",
     ["Line 2: insufficient columns (3 found, minimum 5 expected)"]⟩ rfl
  exact h

/-- C6: every VariantCall in a parse outcome carries one of the six target
genes. -/
theorem parse_variants_target_genes (content : String) (out : VcfOutcome)
    (h : parse_vcf_content content = .ok out) :
    ∀ v ∈ out.variants, v.gene ∈ TARGET_GENES := by
  rw [parse_vcf_content_eq] at h
  cases hpl : processLines (pySplitChar '\n' (pyStrip content.data)) 1
      initState with
  | error e =>
    rw [hpl] at h
    cases h
  | ok st =>
    rw [hpl] at h
    cases h
    intro v hv
    rcases processLines_variants _ 1 initState st hpl v hv with h1 | h1
    · cases h1
    · exact h1

/-- C6 witness: the DPYD variant parsed from a one-line document has a
target gene. -/
theorem parse_variants_target_genes_witness :
    ("DPYD" : String) ∈ TARGET_GENES := by
  have h := parse_variants_target_genes "1\t97543001\trs3918290\tA\tT"
    ⟨[⟨.str "rs3918290", "DPYD", .str "*2A", "1", 97543001, "A", "T"⟩],
     ["DPYD"], 1, 1, "Unknown", []⟩ rfl
    ⟨.str "rs3918290", "DPYD", .str "*2A", "1", 97543001, "A", "T"⟩
    (by simp)
  exact h

-- ──────────────────────────────────────────────────────────────────────────
-- Claim C4
-- ──────────────────────────────────────────────────────────────────────────

/-- `infer_diplotype` from `vcf_parser.py`: collect star alleles (truthy,
first occurrence only) from the gene's variants; two or more distinct stars
form a diplotype from the first two, a single star is doubled (homozygous)
when at least two variants carry it and otherwise paired with `*1`, no
stars yields no diplotype. -/
def infer_diplotype (gene_variants : List VariantCall) : Option String :=
  let stars := gene_variants.foldl
    (fun stars v =>
      if pyTruthy v.star ∧ v.star ∉ stars then stars ++ [v.star] else stars)
    []
  match stars with
  | [] => none
  | [s] =>
    if 2 ≤ gene_variants.length then
      some (pyValStr s ++ "/" ++ pyValStr s)
    else some (pyValStr s ++ "/*1")
  | s0 :: s1 :: _ => some (pyValStr s0 ++ "/" ++ pyValStr s1)

/-- First-occurrence deduplication against an accumulator of already seen
elements (claim-side formulation). -/
def dedupFirstAux {α : Type} [DecidableEq α] (seen : List α) :
    List α → List α
  | [] => []
  | x :: xs =>
    if x ∈ seen then dedupFirstAux seen xs
    else x :: dedupFirstAux (seen ++ [x]) xs

/-- First-occurrence deduplication (claim-side formulation). -/
def dedupFirst {α : Type} [DecidableEq α] (l : List α) : List α :=
  dedupFirstAux [] l

/-- The claim's label sequence: the distinct non-empty star-allele labels
of the records, in first-occurrence order. -/
def specStarLabels (vs : List VariantCall) : List PyVal :=
  dedupFirst ((vs.map VariantCall.star).filter pyTruthy)

/-- The star-collection fold of `infer_diplotype` computes exactly the
first-occurrence deduplication of the truthy star labels. -/
theorem foldl_stars_eq_dedup (vs : List VariantCall) :
    ∀ seen : List PyVal,
      vs.foldl (fun stars v =>
        if pyTruthy v.star ∧ v.star ∉ stars then stars ++ [v.star]
        else stars) seen =
      seen ++ dedupFirstAux seen ((vs.map VariantCall.star).filter pyTruthy)
    := by
  induction vs with
  | nil => intro seen; simp [dedupFirstAux]
  | cons v vs ih =>
    intro seen
    rw [List.foldl_cons, List.map_cons, List.filter_cons]
    by_cases ht : pyTruthy v.star
    · rw [if_pos ht]
      by_cases hm : v.star ∈ seen
      · rw [dedupFirstAux, if_pos hm]
        have hstep :
            (if pyTruthy v.star ∧ v.star ∉ seen then seen ++ [v.star]
             else seen) = seen := by
          rw [if_neg]
          simp [hm]
        rw [hstep, ih]
      · rw [dedupFirstAux, if_neg hm]
        have hstep :
            (if pyTruthy v.star ∧ v.star ∉ seen then seen ++ [v.star]
             else seen) = seen ++ [v.star] := by
          rw [if_pos ⟨ht, hm⟩]
        rw [hstep, ih]
        simp
    · rw [if_neg ht]
      have hstep :
          (if pyTruthy v.star ∧ v.star ∉ seen then seen ++ [v.star]
           else seen) = seen := by
        rw [if_neg]
        simp [ht]
      rw [hstep, ih]

/-- C4: `infer_diplotype` is determined by the distinct non-empty star
labels in first-occurrence order: none → no diplotype; one label X with at
least two records → X/X; one label X with exactly one record → X/*1; two
or more labels → first/second, the rest ignored. -/
theorem infer_diplotype_cases (vs : List VariantCall) :
    (specStarLabels vs = [] → infer_diplotype vs = none) ∧
    (∀ x, specStarLabels vs = [x] → 2 ≤ vs.length →
      infer_diplotype vs = some (pyValStr x ++ "/" ++ pyValStr x)) ∧
    (∀ x, specStarLabels vs = [x] → vs.length = 1 →
      infer_diplotype vs = some (pyValStr x ++ "/*1")) ∧
    (∀ x y rest, specStarLabels vs = x :: y :: rest →
      infer_diplotype vs = some (pyValStr x ++ "/" ++ pyValStr y)) := by
  have hs : vs.foldl (fun stars v =>
      if pyTruthy v.star ∧ v.star ∉ stars then stars ++ [v.star] else stars)
      [] = specStarLabels vs := by
    have h := foldl_stars_eq_dedup vs []
    simpa [specStarLabels, dedupFirst] using h
  refine ⟨?_, ?_, ?_, ?_⟩
  · intro h0
    unfold infer_diplotype
    simp only [hs, h0]
  · intro x h1 hlen
    unfold infer_diplotype
    simp only [hs, h1]
    rw [if_pos hlen]
  · intro x h1 hlen
    unfold infer_diplotype
    simp only [hs, h1]
    rw [if_neg (by omega)]
  · intro x y rest h2
    unfold infer_diplotype
    simp only [hs, h2]

/-- C4 witness: a single record carrying `*4` infers the
heterozygous-with-reference diplotype. -/
theorem infer_diplotype_cases_witness :
    infer_diplotype [⟨.str "rs3892097", "CYP2D6", .str "*4", "22", 42523000,
      "A", "T"⟩] = some "*4/*1" := by
  have h := (infer_diplotype_cases [⟨.str "rs3892097", "CYP2D6", .str "*4",
    "22", 42523000, "A", "T"⟩]).2.2.1 (.str "*4") (by decide) rfl
  rw [h]
  rfl

-- ──────────────────────────────────────────────────────────────────────────
-- Claim C3
-- ──────────────────────────────────────────────────────────────────────────

/-- The branch structure of `get_phenotype` with its local bindings
inlined. -/
theorem get_phenotype_eq (gene diplotype : String) :
    get_phenotype gene diplotype =
      match
        (if pyLookup diplotype ((pyLookup gene PHENOTYPE_MAP).getD []) = none
            ∧ '/' ∈ diplotype.data then
          match pySplitChar '/' diplotype.data with
          | p0 :: p1 :: _ =>
            pyLookup (String.mk (p1 ++ '/' :: p0))
              ((pyLookup gene PHENOTYPE_MAP).getD [])
          | _ => none
        else pyLookup diplotype ((pyLookup gene PHENOTYPE_MAP).getD []))
      with
      | some p => if p = "" then "Unknown" else p
      | none => "Unknown" :=
  rfl

/-- The diplotype key with its two `/`-separated alleles swapped, when the
key consists of exactly two alleles. -/
def swapKey (k : String) : Option String :=
  match pySplitChar '/' k.data with
  | [p0, p1] => some (String.mk (p1 ++ '/' :: p0))
  | _ => none

/-- A diplotype table never maps a key and its swapped form to different
phenotypes. -/
def checkSymm (m : List (String × String)) : Bool :=
  m.all fun p =>
    match swapKey p.1 with
    | none => true
    | some k2 =>
      match pyLookup k2 m with
      | none => true
      | some v => v == p.2

/-- Every per-gene diplotype table of `PHENOTYPE_MAP` is symmetric where
both orders are present. -/
theorem phenotype_maps_symm : ∀ p ∈ PHENOTYPE_MAP, checkSymm p.2 = true := by
  decide

/-- The table reached for any gene (including the empty table for unknown
genes) is symmetric where both orders are present. -/
theorem gene_map_symm (g : String) :
    checkSymm ((pyLookup g PHENOTYPE_MAP).getD []) = true := by
  cases hg : pyLookup g PHENOTYPE_MAP with
  | none => rfl
  | some mm =>
    have hmm := pyLookup_mem hg
    have h := phenotype_maps_symm (g, mm) hmm
    simpa using h

/-- If a symmetric table contains a key and its swapped form, their values
agree. -/
theorem checkSymm_spec {m : List (String × String)} (hc : checkSymm m = true)
    {k1 k2 v1 v2 : String} (hswap : swapKey k1 = some k2)
    (h1 : pyLookup k1 m = some v1) (h2 : pyLookup k2 m = some v2) :
    v1 = v2 := by
  have hmem := pyLookup_mem h1
  have hall := List.all_eq_true.mp hc (k1, v1) hmem
  simp only [hswap, h2] at hall
  exact (beq_iff_eq.mp hall).symm

/-- C3: phenotype lookup is order-insensitive — for every gene and every
pair of separator-free alleles, looking up `A/B` and `B/A` agree: the exact
lookup is tried first, then the swapped diplotype, and `Unknown` only when
both miss. -/
theorem get_phenotype_symm (g a b : String) (ha : '/' ∉ a.data)
    (hb : '/' ∉ b.data) :
    get_phenotype g (a ++ "/" ++ b) = get_phenotype g (b ++ "/" ++ a) := by
  have hd1 : (a ++ "/" ++ b).data = a.data ++ '/' :: b.data := by
    rw [show (a ++ "/" ++ b).data = (a.data ++ ['/']) ++ b.data from rfl,
      List.append_assoc]
    rfl
  have hd2 : (b ++ "/" ++ a).data = b.data ++ '/' :: a.data := by
    rw [show (b ++ "/" ++ a).data = (b.data ++ ['/']) ++ a.data from rfl,
      List.append_assoc]
    rfl
  have hmem1 : '/' ∈ (a ++ "/" ++ b).data := by rw [hd1]; simp
  have hmem2 : '/' ∈ (b ++ "/" ++ a).data := by rw [hd2]; simp
  have hsp1 : pySplitChar '/' (a ++ "/" ++ b).data = [a.data, b.data] := by
    rw [hd1]
    unfold pySplitChar
    rw [pySplitAux_append_sep _ _ _ _ ha, pySplitAux_no_sep _ _ _ hb]
    simp
  have hsp2 : pySplitChar '/' (b ++ "/" ++ a).data = [b.data, a.data] := by
    rw [hd2]
    unfold pySplitChar
    rw [pySplitAux_append_sep _ _ _ _ hb, pySplitAux_no_sep _ _ _ ha]
    simp
  have hkey1 : String.mk (b.data ++ '/' :: a.data) = b ++ "/" ++ a := by
    rw [← hd2]
  have hkey2 : String.mk (a.data ++ '/' :: b.data) = a ++ "/" ++ b := by
    rw [← hd1]
  have hswap1 : swapKey (a ++ "/" ++ b) = some (b ++ "/" ++ a) := by
    unfold swapKey
    simp only [hsp1]
    rw [hkey1]
  rw [get_phenotype_eq, get_phenotype_eq]
  simp only [hsp1, hsp2]
  rw [hkey1, hkey2]
  rcases h1 : pyLookup (a ++ "/" ++ b) ((pyLookup g PHENOTYPE_MAP).getD [])
    with _ | v1 <;>
  rcases h2 : pyLookup (b ++ "/" ++ a) ((pyLookup g PHENOTYPE_MAP).getD [])
    with _ | v2
  · simp [h1, h2, hmem1, hmem2]
  · simp [h1, h2, hmem1, hmem2]
  · simp [h1, h2, hmem1, hmem2]
  · have hv : v1 = v2 := checkSymm_spec (gene_map_symm g) hswap1 h1 h2
    simp [h1, h2, hmem1, hmem2, hv]

/-- C3 witness: `*1/*4` and `*4/*1` resolve to the same CYP2D6
phenotype. -/
theorem get_phenotype_symm_witness :
    ('/' ∉ ("*1" : String).data) ∧
    get_phenotype "CYP2D6" ("*1" ++ "/" ++ "*4") =
      get_phenotype "CYP2D6" ("*4" ++ "/" ++ "*1") :=
  ⟨by decide, get_phenotype_symm "CYP2D6" "*1" "*4" (by decide) (by decide)⟩
